import Mathlib

/-!
Verification of the agent-deck core against its specification.

Shallow embedding of:
  * the observation store (`internal/session/observer.go`),
  * the watch engine (`WatchManager` in the session package),
  * the retry helper (`internal/ai/retry.go`),
  * the LLM providers' `Chat` methods (`internal/ai/anthropic.go`, `internal/ai/openai.go`),
  * the status scheduler's explicit-trigger batch update (`processStatusUpdate` in the ui package).

Go strings holding raw terminal bytes are modelled as `List Nat` (byte lists);
identifiers and messages are modelled as `String`.  `time.Time` values are
modelled as `Nat` instants (the zero value is `0`); `time.Duration` is an `Int`
number of nanoseconds.  Mutexes are modelled explicitly where a claim is about
locking behaviour.
-/

namespace AgentDeck

/-! ### Observation store (observer.go)

`DefaultMaxObservationSize` and `DefaultMaxObservationsPerSession` are the
constants from observer.go.  The `maxSizeBytes`/`retentionCount` accessors
return the configured value when the config and field are non-nil, otherwise
the default. -/

def DefaultMaxObservationSize : Nat := 51200

def DefaultMaxObservationsPerSession : Nat := 100

structure AIObservationSettings where
  maxSizeBytesCfg : Option Nat
  retentionCountCfg : Option Nat
deriving Repr, DecidableEq

def maxSizeBytes (config : Option AIObservationSettings) : Nat :=
  match config with
  | some c =>
    match c.maxSizeBytesCfg with
    | some v => v
    | none => DefaultMaxObservationSize
  | none => DefaultMaxObservationSize

def retentionCount (config : Option AIObservationSettings) : Nat :=
  match config with
  | some c =>
    match c.retentionCountCfg with
    | some v => v
    | none => DefaultMaxObservationsPerSession
  | none => DefaultMaxObservationsPerSession

/-- One captured snapshot (`Observation` in observer.go).  `content` is the
byte list after truncation; `contentHash` abstracts the hex SHA-256 digest of
the untruncated content. -/
structure Observation where
  timestamp : Nat
  content : List Nat
  contentHash : Nat
  status : String
deriving Repr, DecidableEq

/-- Per-session observer entry (`ObservedSession`).  `contentHash = none`
models the Go zero value `""`; a real digest is never the empty string, so the
stored hash is `some h` exactly after at least one observation was stored. -/
structure ObservedSession where
  observations : List Observation
  lastObserved : Nat
  contentHash : Option Nat
deriving Repr, DecidableEq

def ObservedSession.empty : ObservedSession := ⟨[], 0, none⟩

/-- The state mutation performed by `SessionObserver.Observe` on one session's
entry, given the captured pane content, the instance status and the current
time.  `hash` abstracts `hex(sha256(content))`.  Mirrors observer.go lines
109-159: update `LastObserved`; skip when the hash matches; otherwise truncate
to `maxSize` bytes, evict the first element when the buffer is at or over
`retention`, and append the new observation. -/
def observe (maxSize retention : Nat) (hash : List Nat → Nat)
    (s : ObservedSession) (content : List Nat) (status : String) (now : Nat) :
    ObservedSession :=
  let hashStr := hash content
  let s1 : ObservedSession := { s with lastObserved := now }
  if some hashStr = s1.contentHash then s1
  else
    let truncated := if content.length > maxSize then content.take maxSize else content
    let obs : Observation := ⟨now, truncated, hashStr, status⟩
    let kept := if s1.observations.length ≥ retention then s1.observations.drop 1
                else s1.observations
    { s1 with contentHash := some hashStr, observations := kept ++ [obs] }

structure ObserveInput where
  content : List Nat
  status : String
  now : Nat
deriving Repr, DecidableEq

/-- A sequence of `Observe` calls on one session. -/
def runObserve (maxSize retention : Nat) (hash : List Nat → Nat)
    (s : ObservedSession) : List ObserveInput → ObservedSession
  | [] => s
  | i :: rest =>
    runObserve maxSize retention hash (observe maxSize retention hash s i.content i.status i.now) rest

/-- Bounds invariant of claim C1: the buffer never exceeds `retention` entries
and every stored content is at most `maxSize` bytes. -/
def ObsBounded (maxSize retention : Nat) (s : ObservedSession) : Prop :=
  s.observations.length ≤ retention ∧ ∀ o ∈ s.observations, o.content.length ≤ maxSize

/-- Timestamps are non-decreasing along the buffer. -/
def ObsSorted (l : List Observation) : Prop :=
  l.Pairwise (fun a b => a.timestamp ≤ b.timestamp)

/-! ### Mutex discipline of the persisting `Observe` (observer.go lines 93-169)

The persisting variant takes the observer mutex at line 113 with a deferred
unlock at line 114, and on the path that stores a new observation it also
unlocks explicitly at line 161 before the disk write.  The model tracks
whether an `Unlock` ever hits an already-unlocked mutex (which is a fatal
runtime error in Go). -/

structure MutexState where
  locked : Bool
  badUnlock : Bool
deriving Repr, DecidableEq

def MutexState.init : MutexState := ⟨false, false⟩

def mutexLock (m : MutexState) : MutexState := { m with locked := true }

def mutexUnlock (m : MutexState) : MutexState :=
  if m.locked then { m with locked := false } else { m with badUnlock := true }

/-- Mutex operations performed by the persisting `Observe` on the path taken
once the pane was captured, as a function of whether the content hash is
unchanged.  Line 113 locks, line 114 defers an unlock; the unchanged-hash path
returns at line 132 (running only the deferred unlock); the store path runs the
explicit unlock at line 161 and then the deferred unlock at return. -/
def observePersistMutexTrace (hashUnchanged : Bool) : MutexState :=
  let m := mutexLock MutexState.init
  if hashUnchanged then
    mutexUnlock m
  else
    mutexUnlock (mutexUnlock m)

/-! ### Retry helper (retry.go)

`WithRetry` runs `fn` up to `delays.length + 1` times, sleeping
`delays[attempt-1]` before each retry.  `fn` is modelled as a function from
the attempt number to `none` (success) or `some e` (failure message).  The
trace records how many times `fn` ran, the sleeps in order, and the final
result; the all-failed result wraps the last failure as in
`fmt.Errorf("failed after %d attempts: %w", ...)`. -/

def retryDelays : List Nat := [1, 2, 4]

instance {α β : Type} [DecidableEq α] [DecidableEq β] : DecidableEq (Except α β) := fun a b =>
  match a, b with
  | .ok x, .ok y =>
    if h : x = y then .isTrue (by subst h; rfl)
    else .isFalse (by intro hc; cases hc; exact h rfl)
  | .ok _, .error _ => .isFalse (by intro hc; cases hc)
  | .error _, .ok _ => .isFalse (by intro hc; cases hc)
  | .error x, .error y =>
    if h : x = y then .isTrue (by subst h; rfl)
    else .isFalse (by intro hc; cases hc; exact h rfl)

structure RetryTrace where
  attempts : Nat
  sleeps : List Nat
  result : Except String Unit
deriving Repr, DecidableEq

def withRetryLoop (fn : Nat → Option String) :
    Nat → Nat → List Nat → Option String → RetryTrace
  | 0, attempt, sleeps, lastErr =>
    ⟨attempt, sleeps, .error ("failed after 4 attempts: " ++ lastErr.getD "")⟩
  | remaining + 1, attempt, sleeps, _ =>
    let sleeps1 := if attempt > 0 then sleeps ++ [retryDelays.getD (attempt - 1) 0] else sleeps
    match fn attempt with
    | none => ⟨attempt + 1, sleeps1, .ok ()⟩
    | some e => withRetryLoop fn remaining (attempt + 1) sleeps1 (some e)

def withRetry (fn : Nat → Option String) : RetryTrace :=
  withRetryLoop fn (retryDelays.length + 1) 0 [] none

/-! ### Provider `Chat` methods (anthropic.go, openai.go)

The SDK call and response extraction are abstracted into a `ChatOutcome`: the
underlying call either yields a reply, fails with an error, or panics.  A
`ChatResult.panicked` value means the panic propagates to the caller of
`Chat`.  The Anthropic `Chat` wraps its whole body in a deferred
`recover` that turns a panic into the error
`"panic in Anthropic provider: <x>"` (anthropic.go lines 35-40); the OpenAI
`Chat` has no such recovery (openai.go lines 42-79). -/

structure ChatMessage where
  role : String
  content : String
deriving Repr, DecidableEq

inductive ChatOutcome where
  | ok (text : String)
  | err (msg : String)
  | panicWith (msg : String)
deriving Repr, DecidableEq

inductive ChatResult where
  | ok (text : String)
  | err (msg : String)
  | panicked (msg : String)
deriving Repr, DecidableEq

def firstBadRole (messages : List ChatMessage) : Option ChatMessage :=
  messages.find? (fun m => m.role != "user" && m.role != "assistant")

/-- Body shared by both providers: reject the first unsupported role, then
perform the underlying call; a panic in the call surfaces as `panicked`. -/
def chatBody (apiTag : String) (messages : List ChatMessage) (api : ChatOutcome) :
    ChatResult :=
  match firstBadRole messages with
  | some m => .err ("unsupported message role: " ++ m.role)
  | none =>
    match api with
    | .ok text => .ok text
    | .err e => .err (apiTag ++ e)
    | .panicWith p => .panicked p

def anthropicChat (messages : List ChatMessage) (api : ChatOutcome) : ChatResult :=
  match chatBody "anthropic API error: " messages api with
  | .panicked p => .err ("panic in Anthropic provider: " ++ p)
  | r => r

def openaiChat (messages : List ChatMessage) (api : ChatOutcome) : ChatResult :=
  chatBody "openai API error: " messages api

/-! ### Watch engine (`WatchManager`)

`WatchGoal` mirrors the Go struct; `interval` and `timeout` are
`time.Duration` nanoseconds, `createdAt`/`lastTriggered` are instants with `0`
as the Go zero time.  The goal map is modelled as a list keyed by `id`. -/

/-- `strings.TrimSpace`, as a structurally recursive function on the character
list (leading and trailing whitespace removed). -/
def goTrimSpace (s : String) : String :=
  ⟨((s.data.dropWhile Char.isWhitespace).reverse.dropWhile Char.isWhitespace).reverse⟩

def isPrefixOfList : List Char → List Char → Bool
  | [], _ => true
  | _ :: _, [] => false
  | a :: as, b :: bs => a == b && isPrefixOfList as bs

def isInfixOfList (pat : List Char) : List Char → Bool
  | [] => isPrefixOfList pat []
  | s@(_ :: rest) => isPrefixOfList pat s || isInfixOfList pat rest

/-- `strings.Contains s pat`: some suffix of `s` starts with `pat`. -/
def strContainsSub (s pat : String) : Bool :=
  isInfixOfList pat.data s.data

def nanosecond : Int := 1

def second : Int := 1000000000

def defaultWatchIntervalSeconds : Int := 5

def defaultWatchTimeoutSeconds : Int := 3600

def maxConcurrentGoalsConst : Int := 10

structure WatchGoal where
  id : String
  name : String
  description : String
  sessions : List String
  interval : Int
  timeout : Int
  action : String
  paused : Bool
  createdAt : Nat
  lastTriggered : Nat
  triggerCount : Nat
deriving Repr, DecidableEq

structure AIWatchSettings where
  defaultIntervalCfg : Option Int
  defaultTimeoutCfg : Option Int
  maxConcurrentGoalsCfg : Option Int
deriving Repr, DecidableEq

def watchDefaultInterval (config : Option AIWatchSettings) : Int :=
  match config with
  | some c =>
    match c.defaultIntervalCfg with
    | some v => if v > 0 then v * second else defaultWatchIntervalSeconds * second
    | none => defaultWatchIntervalSeconds * second
  | none => defaultWatchIntervalSeconds * second

def watchDefaultTimeout (config : Option AIWatchSettings) : Int :=
  match config with
  | some c =>
    match c.defaultTimeoutCfg with
    | some v => if v > 0 then v * second else defaultWatchTimeoutSeconds * second
    | none => defaultWatchTimeoutSeconds * second
  | none => defaultWatchTimeoutSeconds * second

def watchMaxConcurrentGoals (config : Option AIWatchSettings) : Int :=
  let limit : Int :=
    match config with
    | some c =>
      match c.maxConcurrentGoalsCfg with
      | some v => if v > 0 then v else maxConcurrentGoalsConst
      | none => maxConcurrentGoalsConst
    | none => maxConcurrentGoalsConst
  if limit > maxConcurrentGoalsConst then maxConcurrentGoalsConst else limit

def lookupGoal (goals : List WatchGoal) (id : String) : Option WatchGoal :=
  goals.find? (fun g => g.id == id)

/-- The defaulting steps of `AddGoal` after the description/sessions checks:
generate an ID when absent, default a non-positive interval and timeout, stamp
a zero creation time, and normalize an action outside the closed set to
notify. -/
def normalizeGoal (config : Option AIWatchSettings) (genId : String) (now : Nat)
    (g1 : WatchGoal) : WatchGoal :=
  let g2 := if g1.id = "" then { g1 with id := genId } else g1
  let g3 := if g2.interval ≤ 0 then { g2 with interval := watchDefaultInterval config } else g2
  let g4 := if g3.timeout ≤ 0 then { g3 with timeout := watchDefaultTimeout config } else g3
  let g5 := if g4.createdAt = 0 then { g4 with createdAt := now } else g4
  if g5.action ≠ "notify" ∧ g5.action ≠ "suggest" then { g5 with action := "notify" } else g5

/-- `WatchManager.AddGoal`: validate and add a goal.  `genId` stands for the
result of `generateID()` (used only when the goal carries no ID), `now` for
`time.Now()`.  Returns the new goal list on success. -/
def addGoal (config : Option AIWatchSettings) (genId : String) (now : Nat)
    (goals : List WatchGoal) (goal : Option WatchGoal) :
    Except String (List WatchGoal) :=
  match goal with
  | none => .error "goal is nil"
  | some g0 =>
    let g1 := { g0 with description := goTrimSpace g0.description }
    if g1.description = "" then .error "goal description is empty"
    else if g1.sessions = [] then .error "goal sessions are empty"
    else
      let g6 := normalizeGoal config genId now g1
      if (lookupGoal goals g6.id).isSome then .error ("goal " ++ g6.id ++ " already exists")
      else if (goals.length : Int) ≥ watchMaxConcurrentGoals config then
        .error "max concurrent goals reached"
      else .ok (goals ++ [g6])

/-- `WatchManager.PauseGoal`. -/
def pauseGoal (goals : List WatchGoal) (id : String) : Except String (List WatchGoal) :=
  if goTrimSpace id = "" then .error "goal id is empty"
  else if (lookupGoal goals id).isSome then
    .ok (goals.map fun g => if g.id = id then { g with paused := true } else g)
  else .error ("goal " ++ id ++ " not found")

/-- `WatchManager.ResumeGoal`. -/
def resumeGoal (goals : List WatchGoal) (id : String) : Except String (List WatchGoal) :=
  if goTrimSpace id = "" then .error "goal id is empty"
  else if (lookupGoal goals id).isSome then
    .ok (goals.map fun g => if g.id = id then { g with paused := false } else g)
  else .error ("goal " ++ id ++ " not found")

/-- Latest observation as seen by the watch engine (timestamp plus the content
string). -/
structure WatchObservation where
  timestamp : Nat
  content : String
deriving Repr, DecidableEq

/-- Effects emitted by `evaluateGoal`.  The source only logs (with a notify or
suggest tag); `raiseNotification` is the effect named by the specification for
the notify action and is part of the vocabulary so its absence is expressible. -/
inductive WatchEmit where
  | notifyLog (goalId response : String)
  | suggestLog (goalId response : String)
  | raiseNotification (goalId : String)
deriving Repr, DecidableEq

/-- The per-session blocks of the prompt.  `getLatest` abstracts
`observer.GetLatestObservation`; the timestamp is rendered abstractly in place
of RFC-3339 formatting.  Mirrors the builder loop: skip blank session IDs,
sessions without observations, and blank contents; join blocks with a blank
line. -/
def watchBlocks (getLatest : String → Option WatchObservation)
    (sessions : List String) : String :=
  sessions.foldl
    (fun acc sid =>
      if goTrimSpace sid = "" then acc
      else
        match getLatest sid with
        | none => acc
        | some latest =>
          let content := goTrimSpace latest.content
          if content = "" then acc
          else
            let block := "Session " ++ sid ++ " (" ++ toString latest.timestamp ++ "):\n" ++ content
            if acc = "" then block else acc ++ "\n\n" ++ block)
    ""

def watchPrompt (description blocks : String) : String :=
  "Goal: " ++ description ++ "\nSession content: " ++ blocks ++
    "\nShould I take action? Reply <NoComment> if no, otherwise explain."

/-- Result of one `evaluateGoal` run: the goal list after the run, the emitted
effects, and the returned error if any. -/
structure EvalResult where
  goals : List WatchGoal
  emits : List WatchEmit
  result : Except String Unit
deriving Repr, DecidableEq

/-- `WatchManager.evaluateGoal` for a non-nil goal with a wired observer and
provider.  `chat` abstracts `aiProvider.Chat` on the built prompt; `now` is
`time.Now()` at trigger time.  Mirrors the source: validate description and
sessions from the argument goal, build the observation blocks, return silently
when empty, call the provider, do nothing on a `<NoComment>` reply, otherwise
update the live goal entry (when still present) and log the action read from
the live entry (defaulting to notify). -/
def evaluateGoal (goals : List WatchGoal)
    (getLatest : String → Option WatchObservation)
    (chat : String → Except String String) (now : Nat) (goal : WatchGoal) :
    EvalResult :=
  let goalID := goal.id
  let description := goTrimSpace goal.description
  let sessions := goal.sessions
  if description = "" then ⟨goals, [], .error "goal description is empty"⟩
  else if sessions = [] then ⟨goals, [], .error "goal sessions are empty"⟩
  else
    let blocks := watchBlocks getLatest sessions
    if blocks = "" then ⟨goals, [], .ok ()⟩
    else
      match chat (watchPrompt description blocks) with
      | .error e => ⟨goals, [], .error ("ai chat failed: " ++ e)⟩
      | .ok response =>
        if strContainsSub response "<NoComment>" then ⟨goals, [], .ok ()⟩
        else
          let trimmed := goTrimSpace response
          let goals1 := goals.map fun g =>
            if g.id = goalID then
              { g with lastTriggered := now, triggerCount := g.triggerCount + 1 }
            else g
          let action :=
            match lookupGoal goals goalID with
            | some g => g.action
            | none => "notify"
          let emit := if action = "suggest" then WatchEmit.suggestLog goalID trimmed
                      else WatchEmit.notifyLog goalID trimmed
          ⟨goals1, [emit], .ok ()⟩

/-! ### Status scheduler explicit-trigger tick (`processStatusUpdate`)

One batch update: refresh the session cache, snapshot the instance list,
update every visible instance, then round-robin over the remaining instances
updating at most `batchSize = 2` non-idle ones, advancing the cursor past each
processed instance. -/

def batchSize : Nat := 2

structure SchedInstance where
  id : String
  status : String
deriving Repr, DecidableEq

structure StatusUpdateRequest where
  viewOffset : Nat
  visibleHeight : Nat
  flatItemIDs : List String
deriving Repr, DecidableEq

/-- The visible-ID window: `flatItemIDs[i]` for
`viewOffset ≤ i < min (length) (viewOffset + visibleHeight)`. -/
def visibleIDs (req : StatusUpdateRequest) : List String :=
  (req.flatItemIDs.drop req.viewOffset).take req.visibleHeight

/-- The round-robin loop (step 2 of `processStatusUpdate`): iterate `fuel`
times from loop counter `i`, indexing at `(startIdx + i) % n`; skip instances
already updated (the visible ones) and idle instances; process up to
`remaining` instances, returning them in order plus the final cursor value. -/
def rrGo (insts : List SchedInstance) (visible : List String) (startIdx : Nat) :
    Nat → Nat → Nat → Nat → List SchedInstance × Nat
  | 0, _, _, cursor => ([], cursor)
  | fuel + 1, i, remaining, cursor =>
    if remaining = 0 then ([], cursor)
    else
      let n := insts.length
      match insts[(startIdx + i) % n]? with
      | none => ([], cursor)
      | some inst =>
        if inst.id ∈ visible then rrGo insts visible startIdx fuel (i + 1) remaining cursor
        else if inst.status = "idle" then rrGo insts visible startIdx fuel (i + 1) remaining cursor
        else
          let next := rrGo insts visible startIdx fuel (i + 1) (remaining - 1)
            (((startIdx + i) % n + 1) % n)
          (inst :: next.1, next.2)

/-- `processStatusUpdate`: returns the instances on which `UpdateStatus` is
invoked, in invocation order, and the new round-robin cursor. -/
def processStatusUpdate (insts : List SchedInstance) (req : StatusUpdateRequest)
    (startIdx : Nat) : List SchedInstance × Nat :=
  if insts.length = 0 then ([], startIdx)
  else
    let visible := visibleIDs req
    let step1 := insts.filter (fun inst => decide (inst.id ∈ visible))
    let step2 := rrGo insts visible startIdx insts.length 0 batchSize startIdx
    (step1 ++ step2.1, step2.2)

/-! ## Theorems -/

/-- C10: in the persisting `SessionObserver.Observe`, the path that stores a
new observation runs the explicit unlock before the disk write and then the
deferred unlock at return, so the observer mutex is unlocked a second time
while already unlocked; the unchanged-content path unlocks exactly once. -/
theorem observe_persist_double_unlock :
    (observePersistMutexTrace false).badUnlock = true ∧
    (observePersistMutexTrace true).badUnlock = false := by
  exact ⟨rfl, rfl⟩

/-- C6: on an input whose underlying call panics, the Anthropic `Chat`
converts the panic into the provider-tagged error, but the OpenAI `Chat` has
no deferred recovery and the panic propagates to the caller. -/
theorem openai_chat_panic_leaks :
    openaiChat [⟨"user", "trigger"⟩] (.panicWith "nil pointer dereference")
      = .panicked "nil pointer dereference" ∧
    anthropicChat [⟨"user", "trigger"⟩] (.panicWith "nil pointer dereference")
      = .err ("panic in Anthropic provider: " ++ "nil pointer dereference") := by
  exact ⟨rfl, rfl⟩

/-- C3 counterexample: a goal with an interval of 0.5 s (below one second) and
an action outside the closed set is accepted by `AddGoal`, not rejected: the
interval is stored as given and the action is silently normalized to notify. -/
theorem addGoal_accepts_subsecond_interval_cex :
    addGoal none "gen" 7 []
        (some ⟨"g1", "n", "watch errors", ["s1"], 500000000, 10, "bogus", false, 5, 0, 0⟩)
      = .ok [⟨"g1", "n", "watch errors", ["s1"], 500000000, 10, "notify", false, 5, 0, 0⟩] ∧
    (500000000 : Int) < second := by
  exact ⟨rfl, by decide⟩

/-- C5 counterexample: a goal whose sessions list is empty is rejected by
`AddGoal` with the sessions-are-empty error; there is no all-sessions
interpretation. -/
theorem addGoal_rejects_empty_sessions_cex :
    addGoal none "gen" 0 []
        (some ⟨"", "", "watch errors", [], 0, 0, "notify", false, 0, 0, 0⟩)
      = .error "goal sessions are empty" := by
  exact rfl

/-- C9 counterexample: for a goal that is originally paused, `PauseGoal`
followed by `ResumeGoal` leaves the goal unpaused, which differs from its
original paused value (its trigger count is unchanged). -/
theorem pause_resume_not_involutive_cex :
    (pauseGoal [⟨"g1", "n", "d", ["s1"], 5000000000, 10, "notify", true, 1, 2, 3⟩] "g1").bind
        (fun st => resumeGoal st "g1")
      = .ok [⟨"g1", "n", "d", ["s1"], 5000000000, 10, "notify", false, 1, 2, 3⟩] ∧
    (⟨"g1", "n", "d", ["s1"], 5000000000, 10, "notify", true, 1, 2, 3⟩ : WatchGoal).paused = true ∧
    (⟨"g1", "n", "d", ["s1"], 5000000000, 10, "notify", false, 1, 2, 3⟩ : WatchGoal).paused = false := by
  exact ⟨rfl, rfl, rfl⟩

/-- C2 counterexample: a triggering notify-action evaluation emits exactly a
log entry tagged notify; no notification entry is raised (the emitted effect
list contains no `raiseNotification`). -/
theorem evaluateGoal_notify_log_only_cex :
    (evaluateGoal
        [⟨"g1", "n", "alert on errors", ["s1"], 1000000000, 3600000000000, "notify", false, 1, 0, 0⟩]
        (fun sid => if sid = "s1" then some ⟨3, "FATAL: db down"⟩ else none)
        (fun _ => .ok "Restart db") 9
        ⟨"g1", "n", "alert on errors", ["s1"], 1000000000, 3600000000000, "notify", false, 1, 0, 0⟩)
      = ⟨[⟨"g1", "n", "alert on errors", ["s1"], 1000000000, 3600000000000, "notify", false, 1, 9, 1⟩],
         [WatchEmit.notifyLog "g1" "Restart db"], .ok ()⟩ ∧
    ([WatchEmit.notifyLog "g1" "Restart db"].all
        (fun e => match e with | WatchEmit.raiseNotification _ => false | _ => true)) = true := by
  exact ⟨rfl, rfl⟩

/-- Unfolded form of `observe`. -/
theorem observe_eq (maxSize retention : Nat) (hash : List Nat → Nat)
    (s : ObservedSession) (content : List Nat) (status : String) (now : Nat) :
    observe maxSize retention hash s content status now =
      if some (hash content) = s.contentHash then { s with lastObserved := now }
      else
        { s with
            lastObserved := now,
            contentHash := some (hash content),
            observations :=
              (if s.observations.length ≥ retention then s.observations.drop 1
               else s.observations)
                ++ [⟨now, if content.length > maxSize then content.take maxSize else content,
                     hash content, status⟩] } := by
  rfl

theorem observe_preserves_bounded (maxSize retention : Nat) (hash : List Nat → Nat)
    (hret : 1 ≤ retention) (s : ObservedSession) (content : List Nat) (status : String)
    (now : Nat) (h : ObsBounded maxSize retention s) :
    ObsBounded maxSize retention (observe maxSize retention hash s content status now) := by
  obtain ⟨hl, hc⟩ := h
  have hstored : (if content.length > maxSize then content.take maxSize else content).length
      ≤ maxSize := by
    split_ifs with hsz
    · simp [List.length_take]
    · omega
  unfold ObsBounded
  by_cases hh : some (hash content) = s.contentHash
  · rw [observe_eq, if_pos hh]
    exact ⟨hl, hc⟩
  · rw [observe_eq, if_neg hh]
    by_cases hlen : s.observations.length ≥ retention
    · rw [if_pos hlen]
      refine ⟨?_, ?_⟩
      · show (s.observations.drop 1 ++ [_]).length ≤ retention
        rw [List.length_append, List.length_drop]
        simp only [List.length_cons, List.length_nil]
        omega
      · intro o ho
        rcases List.mem_append.1 ho with h1 | h2
        · exact hc o (List.mem_of_mem_drop h1)
        · rcases List.mem_singleton.1 h2 with rfl
          exact hstored
    · rw [if_neg hlen]
      refine ⟨?_, ?_⟩
      · show (s.observations ++ [_]).length ≤ retention
        rw [List.length_append]
        simp only [List.length_cons, List.length_nil]
        omega
      · intro o ho
        rcases List.mem_append.1 ho with h1 | h2
        · exact hc o h1
        · rcases List.mem_singleton.1 h2 with rfl
          exact hstored

theorem runObserve_preserves_bounded (maxSize retention : Nat) (hash : List Nat → Nat)
    (hret : 1 ≤ retention) (s : ObservedSession) (inputs : List ObserveInput)
    (h : ObsBounded maxSize retention s) :
    ObsBounded maxSize retention (runObserve maxSize retention hash s inputs) := by
  induction inputs generalizing s with
  | nil => exact h
  | cons i rest ih =>
    exact ih _ (observe_preserves_bounded maxSize retention hash hret s i.content i.status i.now h)

theorem observe_preserves_sorted (maxSize retention : Nat) (hash : List Nat → Nat)
    (s : ObservedSession) (content : List Nat) (status : String) (now : Nat)
    (hs : ObsSorted s.observations) (hub : ∀ o ∈ s.observations, o.timestamp ≤ now) :
    ObsSorted (observe maxSize retention hash s content status now).observations ∧
    ∀ o ∈ (observe maxSize retention hash s content status now).observations,
      o.timestamp ≤ now := by
  unfold ObsSorted at hs ⊢
  by_cases hh : some (hash content) = s.contentHash
  · rw [observe_eq, if_pos hh]
    exact ⟨hs, hub⟩
  · rw [observe_eq, if_neg hh]
    by_cases hlen : s.observations.length ≥ retention
    · rw [if_pos hlen]
      refine ⟨?_, ?_⟩
      · refine (List.pairwise_append).2
          ⟨List.Pairwise.sublist (List.drop_sublist 1 _) hs, List.pairwise_singleton _ _, ?_⟩
        intro a ha b hb
        rcases List.mem_singleton.1 hb with rfl
        exact hub a (List.mem_of_mem_drop ha)
      · intro o ho
        rcases List.mem_append.1 ho with h1 | h2
        · exact hub o (List.mem_of_mem_drop h1)
        · rcases List.mem_singleton.1 h2 with rfl
          exact le_rfl
    · rw [if_neg hlen]
      refine ⟨?_, ?_⟩
      · refine (List.pairwise_append).2 ⟨hs, List.pairwise_singleton _ _, ?_⟩
        intro a ha b hb
        rcases List.mem_singleton.1 hb with rfl
        exact hub a ha
      · intro o ho
        rcases List.mem_append.1 ho with h1 | h2
        · exact hub o h1
        · rcases List.mem_singleton.1 h2 with rfl
          exact le_rfl

theorem runObserve_preserves_sorted (maxSize retention : Nat) (hash : List Nat → Nat)
    (s : ObservedSession) (inputs : List ObserveInput)
    (hs : ObsSorted s.observations)
    (hub : ∀ o ∈ s.observations, ∀ inp ∈ inputs, o.timestamp ≤ inp.now)
    (hmono : inputs.Pairwise (fun a b => a.now ≤ b.now)) :
    ObsSorted (runObserve maxSize retention hash s inputs).observations := by
  induction inputs generalizing s with
  | nil => exact hs
  | cons i rest ih =>
    have step := observe_preserves_sorted maxSize retention hash s i.content i.status i.now hs
      (fun o ho => hub o ho i (List.mem_cons_self _ _))
    refine ih _ step.1 ?_ (List.Pairwise.of_cons hmono)
    intro o ho inp hinp
    exact le_trans (step.2 o ho) ((List.pairwise_cons.1 hmono).1 inp hinp)

/-- C1: starting from an empty buffer, any sequence of `Observe` calls keeps
the buffer at or below `retention` entries with every stored content at most
`maxSize` bytes; timestamps stay sorted for monotone call times; and one store
at capacity evicts exactly the first (oldest-timestamp) entry and leaves the
buffer at capacity. -/
theorem observe_retention_bound_and_eviction
    (maxSize retention : Nat) (hash : List Nat → Nat) (hret : 1 ≤ retention) :
    (∀ inputs : List ObserveInput,
        ObsBounded maxSize retention
          (runObserve maxSize retention hash ObservedSession.empty inputs)) ∧
    (∀ inputs : List ObserveInput,
        inputs.Pairwise (fun a b => a.now ≤ b.now) →
        ObsSorted (runObserve maxSize retention hash ObservedSession.empty inputs).observations) ∧
    (∀ (s : ObservedSession) (content : List Nat) (status : String) (now : Nat)
        (evicted : Observation) (rest : List Observation),
        s.observations.length = retention →
        some (hash content) ≠ s.contentHash →
        ObsSorted s.observations →
        s.observations = evicted :: rest →
        (observe maxSize retention hash s content status now).observations
          = rest ++ [⟨now, if content.length > maxSize then content.take maxSize else content,
                      hash content, status⟩] ∧
        (observe maxSize retention hash s content status now).observations.length = retention ∧
        ∀ o ∈ s.observations, evicted.timestamp ≤ o.timestamp) := by
  refine ⟨?_, ?_, ?_⟩
  · intro inputs
    exact runObserve_preserves_bounded maxSize retention hash hret ObservedSession.empty inputs
      ⟨by simp [ObservedSession.empty], by simp [ObservedSession.empty]⟩
  · intro inputs hmono
    exact runObserve_preserves_sorted maxSize retention hash ObservedSession.empty inputs
      (by simp [ObservedSession.empty, ObsSorted]) (by simp [ObservedSession.empty]) hmono
  · intro s content status now evicted rest hlen hne hsorted hobs
    rw [observe_eq, if_neg hne]
    have hge : s.observations.length ≥ retention := le_of_eq hlen.symm
    have hlen' : rest.length + 1 = retention := by
      have h2 := hlen
      rw [hobs] at h2
      simpa using h2
    refine ⟨?_, ?_, ?_⟩
    · rw [if_pos hge, hobs]
      simp
    · rw [if_pos hge, hobs]
      simp only [List.drop_one, List.tail_cons, List.length_append, List.length_cons,
        List.length_nil]
      omega
    · intro o ho
      rw [hobs] at ho
      rcases List.mem_cons.1 ho with rfl | hmem
      · exact le_rfl
      · rw [hobs] at hsorted
        exact (List.pairwise_cons.1 hsorted).1 o hmem

theorem observe_retention_bound_and_eviction_witness :
    1 ≤ 2 ∧
    (observe 3 2 List.length ⟨[⟨1, [7], 1, "r"⟩, ⟨2, [8], 1, "r"⟩], 2, some 1⟩
        [5, 6, 7, 8] "waiting" 9).observations
      = [⟨2, [8], 1, "r"⟩] ++
        [⟨9, if List.length [5, 6, 7, 8] > 3 then List.take 3 [5, 6, 7, 8] else [5, 6, 7, 8],
          List.length [5, 6, 7, 8], "waiting"⟩] ∧
    (observe 3 2 List.length ⟨[⟨1, [7], 1, "r"⟩, ⟨2, [8], 1, "r"⟩], 2, some 1⟩
        [5, 6, 7, 8] "waiting" 9).observations.length = 2 ∧
    ∀ o ∈ (⟨[⟨1, [7], 1, "r"⟩, ⟨2, [8], 1, "r"⟩], 2, some 1⟩ : ObservedSession).observations,
      (⟨1, [7], 1, "r"⟩ : Observation).timestamp ≤ o.timestamp := by
  have h := (observe_retention_bound_and_eviction 3 2 List.length (by decide)).2.2
    ⟨[⟨1, [7], 1, "r"⟩, ⟨2, [8], 1, "r"⟩], 2, some 1⟩ [5, 6, 7, 8] "waiting" 9
    ⟨1, [7], 1, "r"⟩ [⟨2, [8], 1, "r"⟩] (by decide) (by decide)
    (by simp [ObsSorted]) rfl
  exact ⟨by decide, h.1, h.2.1, h.2.2⟩

/-- C8: `Observe` on unchanged content is idempotent: when the hash of the
captured content equals the stored hash, the observation list and the stored
hash are unchanged, while `lastObserved` advances to the current time. -/
theorem observe_unchanged_content_idempotent
    (maxSize retention : Nat) (hash : List Nat → Nat) (s : ObservedSession)
    (content : List Nat) (status : String) (now : Nat)
    (h : s.contentHash = some (hash content)) :
    (observe maxSize retention hash s content status now).observations = s.observations ∧
    (observe maxSize retention hash s content status now).contentHash = s.contentHash ∧
    (observe maxSize retention hash s content status now).lastObserved = now := by
  simp [observe, h]

theorem observe_unchanged_content_idempotent_witness :
    (⟨[⟨1, [9], 1, "running"⟩], 5, some 1⟩ : ObservedSession).contentHash
      = some (List.length [9]) ∧
    (observe 3 2 List.length ⟨[⟨1, [9], 1, "running"⟩], 5, some 1⟩ [9] "running" 7).observations
      = [⟨1, [9], 1, "running"⟩] ∧
    (observe 3 2 List.length ⟨[⟨1, [9], 1, "running"⟩], 5, some 1⟩ [9] "running" 7).contentHash
      = some 1 ∧
    (observe 3 2 List.length ⟨[⟨1, [9], 1, "running"⟩], 5, some 1⟩ [9] "running" 7).lastObserved
      = 7 := by
  have h := observe_unchanged_content_idempotent 3 2 List.length
    ⟨[⟨1, [9], 1, "running"⟩], 5, some 1⟩ [9] "running" 7 (by decide)
  exact ⟨by decide, h.1, h.2.1, h.2.2⟩

theorem withRetry_success_at_0 (fn : Nat → Option String) (h0 : fn 0 = none) :
    withRetry fn = ⟨1, [], .ok ()⟩ := by
  simp [withRetry, withRetryLoop, h0, retryDelays]

theorem withRetry_success_at_1 (fn : Nat → Option String) (e0 : String)
    (h0 : fn 0 = some e0) (h1 : fn 1 = none) :
    withRetry fn = ⟨2, [1], .ok ()⟩ := by
  simp [withRetry, withRetryLoop, h0, h1, retryDelays]

theorem withRetry_success_at_2 (fn : Nat → Option String) (e0 e1 : String)
    (h0 : fn 0 = some e0) (h1 : fn 1 = some e1) (h2 : fn 2 = none) :
    withRetry fn = ⟨3, [1, 2], .ok ()⟩ := by
  simp [withRetry, withRetryLoop, h0, h1, h2, retryDelays]

theorem withRetry_success_at_3 (fn : Nat → Option String) (e0 e1 e2 : String)
    (h0 : fn 0 = some e0) (h1 : fn 1 = some e1) (h2 : fn 2 = some e2) (h3 : fn 3 = none) :
    withRetry fn = ⟨4, [1, 2, 4], .ok ()⟩ := by
  simp [withRetry, withRetryLoop, h0, h1, h2, h3, retryDelays]

theorem withRetry_all_fail (fn : Nat → Option String) (e0 e1 e2 e3 : String)
    (h0 : fn 0 = some e0) (h1 : fn 1 = some e1) (h2 : fn 2 = some e2) (h3 : fn 3 = some e3) :
    withRetry fn = ⟨4, [1, 2, 4], .error ("failed after 4 attempts: " ++ e3)⟩ := by
  simp [withRetry, withRetryLoop, h0, h1, h2, h3, retryDelays]

/-- C4: `WithRetry` runs the operation at most 4 times (one initial attempt
plus up to 3 retries), sleeping 1 s, 2 s, 4 s before the successive retries;
it returns as soon as an attempt succeeds (having performed exactly the
earlier sleeps), and when all 4 attempts fail it returns an error wrapping the
last failure. -/
theorem withRetry_attempt_policy (fn : Nat → Option String) :
    (withRetry fn).attempts ≤ 4 ∧
    (withRetry fn).sleeps = retryDelays.take ((withRetry fn).attempts - 1) ∧
    (∀ k : Nat, k < 4 → (∀ i, i < k → (fn i).isSome) → fn k = none →
        (withRetry fn).attempts = k + 1 ∧ (withRetry fn).result = .ok () ∧
        (withRetry fn).sleeps = retryDelays.take k) ∧
    (∀ e : String, (∀ i, i < 3 → (fn i).isSome) → fn 3 = some e →
        (withRetry fn).attempts = 4 ∧ (withRetry fn).sleeps = retryDelays ∧
        (withRetry fn).result = .error ("failed after 4 attempts: " ++ e)) := by
  rcases h0 : fn 0 with _ | e0
  · rw [withRetry_success_at_0 fn h0]
    refine ⟨by norm_num, by simp [retryDelays], ?_, ?_⟩
    · intro k hk hprev hnone
      interval_cases k
      · simp [retryDelays]
      all_goals
        have hP := hprev 0 (by omega)
        rw [h0] at hP
        simp at hP
    · intro e hprev h3
      have hP := hprev 0 (by omega)
      rw [h0] at hP
      simp at hP
  · rcases h1 : fn 1 with _ | e1
    · rw [withRetry_success_at_1 fn e0 h0 h1]
      refine ⟨by norm_num, by simp [retryDelays], ?_, ?_⟩
      · intro k hk hprev hnone
        interval_cases k
        · rw [h0] at hnone
          simp at hnone
        · simp [retryDelays]
        all_goals
          have hP := hprev 1 (by omega)
          rw [h1] at hP
          simp at hP
      · intro e hprev h3
        have hP := hprev 1 (by omega)
        rw [h1] at hP
        simp at hP
    · rcases h2 : fn 2 with _ | e2
      · rw [withRetry_success_at_2 fn e0 e1 h0 h1 h2]
        refine ⟨by norm_num, by simp [retryDelays], ?_, ?_⟩
        · intro k hk hprev hnone
          interval_cases k
          · rw [h0] at hnone
            simp at hnone
          · rw [h1] at hnone
            simp at hnone
          · simp [retryDelays]
          · have hP := hprev 2 (by omega)
            rw [h2] at hP
            simp at hP
        · intro e hprev h3
          have hP := hprev 2 (by omega)
          rw [h2] at hP
          simp at hP
      · rcases h3 : fn 3 with _ | e3
        · rw [withRetry_success_at_3 fn e0 e1 e2 h0 h1 h2 h3]
          refine ⟨by norm_num, by simp [retryDelays], ?_, ?_⟩
          · intro k hk hprev hnone
            interval_cases k
            · rw [h0] at hnone
              simp at hnone
            · rw [h1] at hnone
              simp at hnone
            · rw [h2] at hnone
              simp at hnone
            · simp [retryDelays]
          · intro e hprev he
            simp at he
        · rw [withRetry_all_fail fn e0 e1 e2 e3 h0 h1 h2 h3]
          refine ⟨by norm_num, by simp [retryDelays], ?_, ?_⟩
          · intro k hk hprev hnone
            interval_cases k
            · rw [h0] at hnone
              simp at hnone
            · rw [h1] at hnone
              simp at hnone
            · rw [h2] at hnone
              simp at hnone
            · rw [h3] at hnone
              simp at hnone
          · intro e hprev he
            injection he with he'
            subst he'
            exact ⟨rfl, rfl, rfl⟩

theorem withRetry_attempt_policy_witness :
    ((3 : Nat) < 4 ∧ ∀ i, i < 3 → ((fun n => if n < 3 then some "try again" else none) i).isSome) ∧
    (withRetry (fun n => if n < 3 then some "try again" else none)).attempts = 3 + 1 ∧
    (withRetry (fun n => if n < 3 then some "try again" else none)).result = .ok () ∧
    (withRetry (fun n => if n < 3 then some "try again" else none)).sleeps
      = retryDelays.take 3 := by
  refine ⟨⟨by omega, ?_⟩, ?_⟩
  · intro i hi
    simp [hi]
  · exact (withRetry_attempt_policy (fun n => if n < 3 then some "try again" else none)).2.2.1
      3 (by omega) (fun i hi => by simp [hi]) (by norm_num)

theorem lookupGoal_map (goals : List WatchGoal) (id : String) (f : WatchGoal → WatchGoal)
    (hf : ∀ h, (f h).id = h.id) :
    lookupGoal (goals.map f) id = Option.map f (lookupGoal goals id) := by
  unfold lookupGoal
  rw [List.find?_map]
  have hpred : ((fun g : WatchGoal => g.id == id) ∘ f) = (fun g : WatchGoal => g.id == id) := by
    funext h
    simp [Function.comp, hf]
  rw [hpred]

/-- C9 (amended): for an existing goal id, `PauseGoal` followed by
`ResumeGoal` leaves the goal with `paused = false` — which equals its original
value exactly when the goal was not paused — and leaves every goal's
`TriggerCount` (and all fields other than `paused`) unchanged. -/
theorem pause_resume_clears_paused
    (goals : List WatchGoal) (id : String) (g : WatchGoal)
    (hid : goTrimSpace id ≠ "") (hlook : lookupGoal goals id = some g) :
    pauseGoal goals id
      = .ok (goals.map fun h => if h.id = id then { h with paused := true } else h) ∧
    resumeGoal (goals.map fun h => if h.id = id then { h with paused := true } else h) id
      = .ok (goals.map fun h => if h.id = id then { h with paused := false } else h) ∧
    (goals.map fun h => if h.id = id then { h with paused := false } else h).map
        (fun h => h.triggerCount)
      = goals.map (fun h => h.triggerCount) ∧
    lookupGoal (goals.map fun h => if h.id = id then { h with paused := false } else h) id
      = some { g with paused := false } := by
  have hgid : g.id = id := by
    have := List.find?_some hlook
    simpa [beq_iff_eq] using this
  have hfp : ∀ h : WatchGoal,
      ((if h.id = id then ({ h with paused := true } : WatchGoal) else h)).id = h.id := by
    intro h
    by_cases hh : h.id = id <;> simp [hh]
  refine ⟨?_, ?_, ?_, ?_⟩
  · simp [pauseGoal, hid, hlook]
  · have hlookmap :
        lookupGoal (goals.map fun h => if h.id = id then { h with paused := true } else h) id
          = some { g with paused := true } := by
      rw [lookupGoal_map _ _ _ hfp, hlook]
      simp [hgid]
    rw [resumeGoal, if_neg hid, if_pos (by simp [hlookmap])]
    congr 1
    rw [List.map_map]
    refine List.map_congr_left ?_
    intro a _
    by_cases ha : a.id = id <;> simp [Function.comp, ha]
  · rw [List.map_map]
    refine List.map_congr_left ?_
    intro a _
    by_cases ha : a.id = id <;> simp [Function.comp, ha]
  · have hff : ∀ h : WatchGoal,
        ((if h.id = id then ({ h with paused := false } : WatchGoal) else h)).id = h.id := by
      intro h
      by_cases hh : h.id = id <;> simp [hh]
    rw [lookupGoal_map _ _ _ hff, hlook]
    simp [hgid]

theorem pause_resume_clears_paused_witness :
    (goTrimSpace "g2" ≠ "" ∧
      lookupGoal [⟨"g2", "n2", "desc", ["s2"], 2000000000, 5, "suggest", false, 4, 6, 8⟩] "g2"
        = some ⟨"g2", "n2", "desc", ["s2"], 2000000000, 5, "suggest", false, 4, 6, 8⟩) ∧
    pauseGoal [⟨"g2", "n2", "desc", ["s2"], 2000000000, 5, "suggest", false, 4, 6, 8⟩] "g2"
      = .ok ([⟨"g2", "n2", "desc", ["s2"], 2000000000, 5, "suggest", false, 4, 6, 8⟩].map
          fun h => if h.id = "g2" then { h with paused := true } else h) ∧
    lookupGoal ([⟨"g2", "n2", "desc", ["s2"], 2000000000, 5, "suggest", false, 4, 6, 8⟩].map
        fun h => if h.id = "g2" then { h with paused := false } else h) "g2"
      = some ⟨"g2", "n2", "desc", ["s2"], 2000000000, 5, "suggest", false, 4, 6, 8⟩ := by
  have h := pause_resume_clears_paused
    [⟨"g2", "n2", "desc", ["s2"], 2000000000, 5, "suggest", false, 4, 6, 8⟩] "g2"
    ⟨"g2", "n2", "desc", ["s2"], 2000000000, 5, "suggest", false, 4, 6, 8⟩
    (by decide) (by decide)
  exact ⟨⟨by decide, by decide⟩, h.1, h.2.2.2⟩

/-- C5 (amended): a goal whose sessions list is empty is rejected by `AddGoal`
with the sessions-are-empty error, and `evaluateGoal` on such a goal returns
the same error without collecting anything, changing any goal, or emitting any
action; there is no all-sessions interpretation of the empty list. -/
theorem empty_sessions_rejected_everywhere
    (config : Option AIWatchSettings) (genId : String) (now : Nat)
    (goals : List WatchGoal) (getLatest : String → Option WatchObservation)
    (chat : String → Except String String) (g : WatchGoal)
    (hdesc : goTrimSpace g.description ≠ "") (hsess : g.sessions = []) :
    addGoal config genId now goals (some g) = .error "goal sessions are empty" ∧
    evaluateGoal goals getLatest chat now g = ⟨goals, [], .error "goal sessions are empty"⟩ := by
  constructor
  · simp [addGoal, hdesc, hsess]
  · simp [evaluateGoal, hdesc, hsess]

theorem empty_sessions_rejected_everywhere_witness :
    (goTrimSpace " alert " ≠ "" ∧
      (⟨"g9", "n", " alert ", [], 0, 0, "notify", false, 0, 0, 0⟩ : WatchGoal).sessions = []) ∧
    addGoal none "gen" 2 [] (some ⟨"g9", "n", " alert ", [], 0, 0, "notify", false, 0, 0, 0⟩)
      = .error "goal sessions are empty" ∧
    evaluateGoal [] (fun _ => none) (fun _ => .ok "x") 2
        ⟨"g9", "n", " alert ", [], 0, 0, "notify", false, 0, 0, 0⟩
      = ⟨[], [], .error "goal sessions are empty"⟩ := by
  have h := empty_sessions_rejected_everywhere none "gen" 2 [] (fun _ => none)
    (fun _ => .ok "x") ⟨"g9", "n", " alert ", [], 0, 0, "notify", false, 0, 0, 0⟩
    (by decide) (by decide)
  exact ⟨⟨by decide, by decide⟩, h.1, h.2⟩

/-- C3 (amended): `AddGoal` rejects a nil goal, an empty (after trimming)
description, an empty sessions list, a duplicate ID, and a full goal set
(`max concurrent goals reached`, storing nothing); it generates an ID exactly
when the goal has none; a non-positive interval is replaced by the default and
a positive sub-second interval is kept; an action outside notify/suggest is
silently normalized to notify — neither bad intervals nor bad actions are
rejected. -/
theorem addGoal_validation_behavior
    (config : Option AIWatchSettings) (genId : String) (now : Nat) (goals : List WatchGoal) :
    (addGoal config genId now goals none = .error "goal is nil") ∧
    (∀ g : WatchGoal, goTrimSpace g.description = "" →
        addGoal config genId now goals (some g) = .error "goal description is empty") ∧
    (∀ g : WatchGoal, goTrimSpace g.description ≠ "" → g.sessions = [] →
        addGoal config genId now goals (some g) = .error "goal sessions are empty") ∧
    (∀ g : WatchGoal, g.id = "" → (normalizeGoal config genId now g).id = genId) ∧
    (∀ g : WatchGoal, g.id ≠ "" → (normalizeGoal config genId now g).id = g.id) ∧
    (∀ g : WatchGoal, g.interval ≤ 0 →
        (normalizeGoal config genId now g).interval = watchDefaultInterval config) ∧
    (∀ g : WatchGoal, 0 < g.interval →
        (normalizeGoal config genId now g).interval = g.interval) ∧
    (∀ g : WatchGoal, g.action ≠ "notify" → g.action ≠ "suggest" →
        (normalizeGoal config genId now g).action = "notify") ∧
    (∀ g : WatchGoal, goTrimSpace g.description ≠ "" → g.sessions ≠ [] →
        (lookupGoal goals
            (normalizeGoal config genId now { g with description := goTrimSpace g.description }).id).isSome →
        addGoal config genId now goals (some g)
          = .error ("goal "
              ++ (normalizeGoal config genId now { g with description := goTrimSpace g.description }).id
              ++ " already exists")) ∧
    (∀ g : WatchGoal, goTrimSpace g.description ≠ "" → g.sessions ≠ [] →
        lookupGoal goals
            (normalizeGoal config genId now { g with description := goTrimSpace g.description }).id
          = none →
        (goals.length : Int) ≥ watchMaxConcurrentGoals config →
        addGoal config genId now goals (some g) = .error "max concurrent goals reached") ∧
    (∀ g : WatchGoal, goTrimSpace g.description ≠ "" → g.sessions ≠ [] →
        lookupGoal goals
            (normalizeGoal config genId now { g with description := goTrimSpace g.description }).id
          = none →
        (goals.length : Int) < watchMaxConcurrentGoals config →
        addGoal config genId now goals (some g)
          = .ok (goals
              ++ [normalizeGoal config genId now { g with description := goTrimSpace g.description }])) := by
  refine ⟨rfl, ?_, ?_, ?_, ?_, ?_, ?_, ?_, ?_, ?_, ?_⟩
  · intro g hd
    simp [addGoal, hd]
  · intro g hd hs
    simp [addGoal, hd, hs]
  · intro g hid
    by_cases h2 : g.interval ≤ 0 <;> by_cases h3 : g.timeout ≤ 0 <;>
      by_cases h4 : g.createdAt = 0 <;>
      by_cases h5 : g.action ≠ "notify" ∧ g.action ≠ "suggest" <;>
      simp [normalizeGoal, hid, h2, h3, h4, h5]
  · intro g hid
    by_cases h2 : g.interval ≤ 0 <;> by_cases h3 : g.timeout ≤ 0 <;>
      by_cases h4 : g.createdAt = 0 <;>
      by_cases h5 : g.action ≠ "notify" ∧ g.action ≠ "suggest" <;>
      simp [normalizeGoal, hid, h2, h3, h4, h5]
  · intro g hint
    by_cases h1 : g.id = "" <;> by_cases h3 : g.timeout ≤ 0 <;>
      by_cases h4 : g.createdAt = 0 <;>
      by_cases h5 : g.action ≠ "notify" ∧ g.action ≠ "suggest" <;>
      simp [normalizeGoal, hint, h1, h3, h4, h5]
  · intro g hint
    have h2 : ¬ g.interval ≤ 0 := by omega
    by_cases h1 : g.id = "" <;> by_cases h3 : g.timeout ≤ 0 <;>
      by_cases h4 : g.createdAt = 0 <;>
      by_cases h5 : g.action ≠ "notify" ∧ g.action ≠ "suggest" <;>
      simp [normalizeGoal, h1, h2, h3, h4, h5]
  · intro g ha1 ha2
    have h5 : g.action ≠ "notify" ∧ g.action ≠ "suggest" := ⟨ha1, ha2⟩
    by_cases h1 : g.id = "" <;> by_cases h2 : g.interval ≤ 0 <;>
      by_cases h3 : g.timeout ≤ 0 <;> by_cases h4 : g.createdAt = 0 <;>
      simp [normalizeGoal, h1, h2, h3, h4, h5]
  · intro g hd hs hdup
    rw [addGoal]
    rw [if_neg (by simp [hd]), if_neg (by simp [hs]), if_pos hdup]
  · intro g hd hs hdup hcap
    rw [addGoal]
    rw [if_neg (by simpa using hd), if_neg (by simpa using hs),
      if_neg (by simp [hdup]), if_pos hcap]
  · intro g hd hs hdup hcap
    rw [addGoal]
    rw [if_neg (by simpa using hd), if_neg (by simpa using hs),
      if_neg (by simp [hdup]), if_neg (by omega)]

theorem addGoal_validation_behavior_witness :
    (goTrimSpace " watch errors " ≠ "" ∧
      (⟨"", "n", " watch errors ", ["s1"], 0, 0, "x", false, 0, 0, 0⟩ : WatchGoal).sessions ≠ [] ∧
      lookupGoal []
          (normalizeGoal none "gen" 3
            { (⟨"", "n", " watch errors ", ["s1"], 0, 0, "x", false, 0, 0, 0⟩ : WatchGoal) with
                description := goTrimSpace " watch errors " }).id
        = none ∧
      (([] : List WatchGoal).length : Int) < watchMaxConcurrentGoals none) ∧
    addGoal none "gen" 3 [] (some ⟨"", "n", " watch errors ", ["s1"], 0, 0, "x", false, 0, 0, 0⟩)
      = .ok ([]
          ++ [normalizeGoal none "gen" 3
              { (⟨"", "n", " watch errors ", ["s1"], 0, 0, "x", false, 0, 0, 0⟩ : WatchGoal) with
                  description := goTrimSpace " watch errors " }]) := by
  have h := (addGoal_validation_behavior none "gen" 3 []).2.2.2.2.2.2.2.2.2.2
    ⟨"", "n", " watch errors ", ["s1"], 0, 0, "x", false, 0, 0, 0⟩
    (by decide) (by decide) (by decide) (by decide)
  exact ⟨⟨by decide, by decide, by decide, by decide⟩, h⟩

/-- C2 (amended): for an evaluation that reaches the provider and gets a
reply: if the reply contains `<NoComment>` anywhere, nothing changes and
nothing is emitted; otherwise the goal's `triggerCount` is incremented by one,
`lastTriggered` is set to the current time, and the action is emitted as a
log entry tagged suggest or notify according to the stored goal's action — no
notification entry is raised by either action. -/
theorem evaluateGoal_reply_handling
    (goals : List WatchGoal) (getLatest : String → Option WatchObservation)
    (chat : String → Except String String) (now : Nat) (goal : WatchGoal) (reply : String)
    (hdesc : goTrimSpace goal.description ≠ "")
    (hsess : goal.sessions ≠ [])
    (hblocks : watchBlocks getLatest goal.sessions ≠ "")
    (hchat : chat (watchPrompt (goTrimSpace goal.description)
        (watchBlocks getLatest goal.sessions)) = .ok reply) :
    (strContainsSub reply "<NoComment>" = true →
        evaluateGoal goals getLatest chat now goal = ⟨goals, [], .ok ()⟩) ∧
    (strContainsSub reply "<NoComment>" = false →
        (evaluateGoal goals getLatest chat now goal).goals
          = goals.map (fun g => if g.id = goal.id then
              { g with lastTriggered := now, triggerCount := g.triggerCount + 1 } else g) ∧
        (evaluateGoal goals getLatest chat now goal).emits
          = [if (match lookupGoal goals goal.id with
                 | some g => g.action
                 | none => "notify") = "suggest"
             then WatchEmit.suggestLog goal.id (goTrimSpace reply)
             else WatchEmit.notifyLog goal.id (goTrimSpace reply)] ∧
        ∀ gid : String,
          WatchEmit.raiseNotification gid ∉ (evaluateGoal goals getLatest chat now goal).emits) := by
  constructor
  · intro hcontains
    simp [evaluateGoal, hdesc, hsess, hblocks, hchat, hcontains]
  · intro hnc
    have heval : evaluateGoal goals getLatest chat now goal
        = ⟨goals.map (fun g => if g.id = goal.id then
              { g with lastTriggered := now, triggerCount := g.triggerCount + 1 } else g),
           [if (match lookupGoal goals goal.id with
                | some g => g.action
                | none => "notify") = "suggest"
            then WatchEmit.suggestLog goal.id (goTrimSpace reply)
            else WatchEmit.notifyLog goal.id (goTrimSpace reply)],
           .ok ()⟩ := by
      rw [evaluateGoal]
      rw [if_neg hdesc, if_neg hsess, if_neg hblocks, hchat]
      simp only [hnc, Bool.false_eq_true, if_false]
    refine ⟨by rw [heval], by rw [heval], ?_⟩
    intro gid hmem
    rw [heval] at hmem
    rcases List.mem_singleton.1 hmem with heq
    revert heq
    split <;> simp

theorem evaluateGoal_reply_handling_witness :
    (goTrimSpace "check for failures" ≠ "" ∧
      (⟨"g3", "n", "check for failures", ["s7"], 1000000000, 60000000000,
          "suggest", false, 1, 0, 4⟩ : WatchGoal).sessions ≠ [] ∧
      watchBlocks (fun sid => if sid = "s7" then some ⟨2, "error: oops"⟩ else none) ["s7"] ≠ "" ∧
      strContainsSub "Look into it" "<NoComment>" = false) ∧
    (evaluateGoal
        [⟨"g3", "n", "check for failures", ["s7"], 1000000000, 60000000000,
           "suggest", false, 1, 0, 4⟩]
        (fun sid => if sid = "s7" then some ⟨2, "error: oops"⟩ else none)
        (fun _ => .ok "Look into it") 11
        ⟨"g3", "n", "check for failures", ["s7"], 1000000000, 60000000000,
          "suggest", false, 1, 0, 4⟩).goals
      = [⟨"g3", "n", "check for failures", ["s7"], 1000000000, 60000000000,
          "suggest", false, 1, 11, 5⟩] ∧
    (evaluateGoal
        [⟨"g3", "n", "check for failures", ["s7"], 1000000000, 60000000000,
           "suggest", false, 1, 0, 4⟩]
        (fun sid => if sid = "s7" then some ⟨2, "error: oops"⟩ else none)
        (fun _ => .ok "Look into it") 11
        ⟨"g3", "n", "check for failures", ["s7"], 1000000000, 60000000000,
          "suggest", false, 1, 0, 4⟩).emits
      = [WatchEmit.suggestLog "g3" "Look into it"] := by
  have h := (evaluateGoal_reply_handling
    [⟨"g3", "n", "check for failures", ["s7"], 1000000000, 60000000000,
       "suggest", false, 1, 0, 4⟩]
    (fun sid => if sid = "s7" then some ⟨2, "error: oops"⟩ else none)
    (fun _ => .ok "Look into it") 11
    ⟨"g3", "n", "check for failures", ["s7"], 1000000000, 60000000000,
      "suggest", false, 1, 0, 4⟩ "Look into it"
    (by decide) (by decide) (by decide) rfl).2 (by decide)
  refine ⟨⟨by decide, by decide, by decide, by decide⟩, ?_, ?_⟩
  · rw [h.1]
    decide
  · rw [h.2.1]
    decide

theorem rrGo_length_le (insts : List SchedInstance) (visible : List String) (startIdx : Nat) :
    ∀ fuel i remaining cursor : Nat,
      (rrGo insts visible startIdx fuel i remaining cursor).1.length ≤ remaining := by
  intro fuel
  induction fuel with
  | zero =>
    intro i remaining cursor
    simp [rrGo]
  | succ fuel ih =>
    intro i remaining cursor
    by_cases hr : remaining = 0
    · simp [rrGo, hr]
    · rcases hidx : insts[(startIdx + i) % insts.length]? with _ | inst
      · simp [rrGo, hr, hidx]
      · simp only [rrGo, hr, if_false, hidx]
        split_ifs with h1 h2
        · exact ih (i + 1) remaining cursor
        · exact ih (i + 1) remaining cursor
        · simp only [List.length_cons]
          have := ih (i + 1) (remaining - 1)
            (((startIdx + i) % insts.length + 1) % insts.length)
          omega

theorem rrGo_mem (insts : List SchedInstance) (visible : List String) (startIdx : Nat) :
    ∀ (fuel i remaining cursor : Nat) (x : SchedInstance),
      x ∈ (rrGo insts visible startIdx fuel i remaining cursor).1 →
      x.id ∉ visible ∧ x.status ≠ "idle" := by
  intro fuel
  induction fuel with
  | zero =>
    intro i remaining cursor x hx
    simp [rrGo] at hx
  | succ fuel ih =>
    intro i remaining cursor x hx
    by_cases hr : remaining = 0
    · simp [rrGo, hr] at hx
    · rcases hidx : insts[(startIdx + i) % insts.length]? with _ | inst
      · simp [rrGo, hr, hidx] at hx
      · simp only [rrGo, hr, if_false, hidx] at hx
        split_ifs at hx with h1 h2
        · exact ih (i + 1) remaining cursor x hx
        · exact ih (i + 1) remaining cursor x hx
        · rcases List.mem_cons.1 hx with rfl | hx2
          · exact ⟨h1, h2⟩
          · exact ih (i + 1) (remaining - 1)
              (((startIdx + i) % insts.length + 1) % insts.length) x hx2

theorem processStatusUpdate_eq (insts : List SchedInstance) (req : StatusUpdateRequest)
    (startIdx : Nat) (h : ¬ insts.length = 0) :
    processStatusUpdate insts req startIdx =
      (insts.filter (fun inst => decide (inst.id ∈ visibleIDs req))
         ++ (rrGo insts (visibleIDs req) startIdx insts.length 0 batchSize startIdx).1,
       (rrGo insts (visibleIDs req) startIdx insts.length 0 batchSize startIdx).2) := by
  simp only [processStatusUpdate]
  rw [if_neg h]

/-- C7: one explicit-trigger batch update invokes `UpdateStatus` on at most
`visibleHeight + batchSize` sessions (when session IDs are unique); the update
sequence is the visible sessions followed by the round-robin ones, every
round-robin-updated session is non-visible, at most `batchSize` of them are
updated, and idle sessions are skipped by the round-robin step. -/
theorem processStatusUpdate_batch_policy
    (insts : List SchedInstance) (req : StatusUpdateRequest) (startIdx : Nat)
    (hnodup : (insts.map (fun x => x.id)).Nodup) :
    (processStatusUpdate insts req startIdx).1.length ≤ req.visibleHeight + batchSize ∧
    ∃ vis rr, (processStatusUpdate insts req startIdx).1 = vis ++ rr ∧
      (∀ x ∈ vis, x.id ∈ visibleIDs req) ∧
      (∀ x ∈ rr, x.id ∉ visibleIDs req) ∧
      rr.length ≤ batchSize ∧
      (∀ x ∈ rr, x.status ≠ "idle") := by
  by_cases hempty : insts.length = 0
  · rw [processStatusUpdate, if_pos hempty]
    exact ⟨by simp, [], [], by simp, by simp, by simp, by simp [batchSize], by simp⟩
  · rw [processStatusUpdate_eq insts req startIdx hempty]
    have hlen1 : (insts.filter (fun inst => decide (inst.id ∈ visibleIDs req))).length
        ≤ req.visibleHeight := by
      have hsubset : ((insts.filter (fun inst => decide (inst.id ∈ visibleIDs req))).map
          (fun x => x.id)) ⊆ visibleIDs req := by
        intro a ha
        rcases List.mem_map.1 ha with ⟨x, hx, rfl⟩
        have hx2 := List.of_mem_filter hx
        simpa using hx2
      have hnd : ((insts.filter (fun inst => decide (inst.id ∈ visibleIDs req))).map
          (fun x => x.id)).Nodup :=
        List.Nodup.sublist (List.Sublist.map _ (List.filter_sublist insts)) hnodup
      have hle := (List.subperm_of_subset hnd hsubset).length_le
      rw [List.length_map] at hle
      refine le_trans hle ?_
      unfold visibleIDs
      rw [List.length_take]
      exact min_le_left _ _
    have hlen2 := rrGo_length_le insts (visibleIDs req) startIdx insts.length 0 batchSize startIdx
    refine ⟨?_, insts.filter (fun inst => decide (inst.id ∈ visibleIDs req)),
      (rrGo insts (visibleIDs req) startIdx insts.length 0 batchSize startIdx).1,
      rfl, ?_, ?_, hlen2, ?_⟩
    · rw [List.length_append]
      omega
    · intro x hx
      have hx2 := List.of_mem_filter hx
      simpa using hx2
    · intro x hx
      exact (rrGo_mem insts (visibleIDs req) startIdx insts.length 0 batchSize startIdx x hx).1
    · intro x hx
      exact (rrGo_mem insts (visibleIDs req) startIdx insts.length 0 batchSize startIdx x hx).2

theorem processStatusUpdate_batch_policy_witness :
    (([⟨"a", "running"⟩, ⟨"b", "idle"⟩, ⟨"c", "waiting"⟩,
        ⟨"d", "running"⟩] : List SchedInstance).map (fun x => x.id)).Nodup ∧
    (processStatusUpdate [⟨"a", "running"⟩, ⟨"b", "idle"⟩, ⟨"c", "waiting"⟩, ⟨"d", "running"⟩]
        ⟨0, 1, ["a", "b", "c", "d"]⟩ 0).1
      = [⟨"a", "running"⟩, ⟨"c", "waiting"⟩, ⟨"d", "running"⟩] ∧
    (processStatusUpdate [⟨"a", "running"⟩, ⟨"b", "idle"⟩, ⟨"c", "waiting"⟩, ⟨"d", "running"⟩]
        ⟨0, 1, ["a", "b", "c", "d"]⟩ 0).1.length ≤ (1 : Nat) + batchSize ∧
    (∃ vis rr,
      (processStatusUpdate [⟨"a", "running"⟩, ⟨"b", "idle"⟩, ⟨"c", "waiting"⟩, ⟨"d", "running"⟩]
          ⟨0, 1, ["a", "b", "c", "d"]⟩ 0).1 = vis ++ rr ∧
      (∀ x ∈ vis, x.id ∈ visibleIDs ⟨0, 1, ["a", "b", "c", "d"]⟩) ∧
      (∀ x ∈ rr, x.id ∉ visibleIDs ⟨0, 1, ["a", "b", "c", "d"]⟩) ∧
      rr.length ≤ batchSize ∧
      (∀ x ∈ rr, x.status ≠ "idle")) := by
  have h := processStatusUpdate_batch_policy
    [⟨"a", "running"⟩, ⟨"b", "idle"⟩, ⟨"c", "waiting"⟩, ⟨"d", "running"⟩]
    ⟨0, 1, ["a", "b", "c", "d"]⟩ 0 (by decide)
  exact ⟨by decide, by decide, h.1, h.2⟩

end AgentDeck
